import Mathlib

/-!
Verification of the fetch-clean-filter pipeline of `src/app.py`
(a Streamlit dashboard fetching FRED economic series).

The Python program is shallowly embedded: the pure data transformations
(JSON payload cleaning, date-range filtering, query-parameter construction)
become Lean functions over lists; Python exceptions become an explicit
`Except PyExn` layer, with the program's `try/except` handlers modelled as
total matches over that layer; Streamlit side effects (`st.error`,
`st.warning`, `st.success`) become message strings recorded in the result.
-/

deriving instance DecidableEq for Except

namespace PublicDataViz

/-- A calendar date (year, month, day), as produced by `pd.to_datetime`
on an ISO `YYYY-MM-DD` string (line 83 of `app.py`). -/
structure Date where
  year : Nat
  month : Nat
  day : Nat
deriving DecidableEq, Repr

/-- Chronological order on dates: lexicographic on (year, month, day). -/
def Date.Le (a b : Date) : Prop :=
  a.year < b.year ∨
    (a.year = b.year ∧
      (a.month < b.month ∨ (a.month = b.month ∧ a.day ≤ b.day)))

/-- Strict chronological order on dates. -/
def Date.Lt (a b : Date) : Prop :=
  a.year < b.year ∨
    (a.year = b.year ∧
      (a.month < b.month ∨ (a.month = b.month ∧ a.day < b.day)))

instance (a b : Date) : Decidable (Date.Le a b) := by
  unfold Date.Le; infer_instance

instance (a b : Date) : Decidable (Date.Lt a b) := by
  unfold Date.Lt; infer_instance

/-- Boolean chronological comparison, for use in list combinators. -/
def Date.ble (a b : Date) : Bool := decide (Date.Le a b)

/-- Boolean strict chronological comparison; `Date.blt e s = true` models
the Python comparison `s > e` on `datetime.date` values (line 137). -/
def Date.blt (a b : Date) : Bool := decide (Date.Lt a b)

/-- Split a character list at every occurrence of a separator character
(the semantics of Python and pandas string splitting on a one-character
separator: `n` separators yield `n+1` pieces, empty pieces included). -/
def splitOnChar (sep : Char) : List Char → List (List Char)
  | [] => [[]]
  | c :: rest =>
    if c = sep then [] :: splitOnChar sep rest
    else
      match splitOnChar sep rest with
      | h :: t => (c :: h) :: t
      | [] => [[c]]

/-- Decimal digit test on a character. -/
def isDigitChar (c : Char) : Bool := 48 ≤ c.toNat ∧ c.toNat ≤ 57

/-- Value of a list of decimal digits, most significant first. -/
def digitsVal (l : List Char) : Nat :=
  l.foldl (fun a c => a * 10 + (c.toNat - 48)) 0

/-- Parse a nonempty all-digit character list as a natural number. -/
def decNat? (l : List Char) : Option Nat :=
  if l ≠ [] ∧ l.all isDigitChar then some (digitsVal l) else none

/-- Parse an ISO `YYYY-MM-DD` date string, as `pd.to_datetime` does on the
date fields of a FRED payload; `none` models a raised parse exception. -/
def parseDate (s : String) : Option Date :=
  match splitOnChar '-' s.data with
  | [y, m, d] =>
    match decNat? y, decNat? m, decNat? d with
    | some yn, some mn, some dn =>
      if 1 ≤ mn ∧ mn ≤ 12 ∧ 1 ≤ dn ∧ dn ≤ 31 then some ⟨yn, mn, dn⟩ else none
    | _, _, _ => none
  | _ => none

/-- Parse a decimal numeric string to a rational, as `pd.to_numeric` does on
the value fields of a FRED payload (optional sign, integer part, optional
fractional part).  `none` is the coerced `NaN` of
`pd.to_numeric(..., errors='coerce')` (line 84): in particular the FRED
missing-value sentinel "." parses to `none`, never to a number. -/
def parseNumeric (s : String) : Option Rat :=
  let neg : Bool := s.data.head? = some '-'
  let t : List Char := if neg then s.data.tail else s.data
  let mag : Option Rat :=
    match splitOnChar '.' t with
    | [a] => (decNat? a).map (fun n => mkRat n 1)
    | [a, b] =>
      if a = [] ∧ b = [] then none
      else
        let ip : Option Nat := if a = [] then some 0 else decNat? a
        let fp : Option Nat := if b = [] then some 0 else decNat? b
        match ip, fp with
        | some n, some f => some (mkRat (n * 10 ^ b.length + f) (10 ^ b.length))
        | _, _ => none
    | _ => none
  mag.map (fun q => if neg then -q else q)

/-- One raw observation of the FRED JSON payload:
`{date: "YYYY-MM-DD", value: string}`. -/
structure RawObs where
  date : String
  value : String
deriving DecidableEq, Repr

/-- One cleaned observation: a row of the DataFrame returned by
`fetch_fred_data` (date index, float value). -/
structure Obs where
  date : Date
  value : Rat
deriving DecidableEq, Repr

/-- A cell of the `date` column: either a raw JSON string or an
already-parsed datetime (as in an already-cleaned frame). -/
inductive DCell where
  | raw (s : String)
  | dt (d : Date)
deriving DecidableEq, Repr

/-- A cell of the `value` column: either a raw JSON string or an
already-coerced number. -/
inductive VCell where
  | raw (s : String)
  | num (q : Rat)
deriving DecidableEq, Repr

/-- A row before cleaning: cells of the two columns. -/
structure CellObs where
  date : DCell
  value : VCell
deriving DecidableEq, Repr

/-- Apply `pd.to_datetime` to a date cell: parses a raw string (raising, i.e.
`none`, on failure) and is the identity on an already-parsed datetime. -/
def toDatetimeCell : DCell → Option Date
  | .raw s => parseDate s
  | .dt d => some d

/-- Apply `pd.to_numeric(..., errors='coerce')` to a value cell: coerces a raw
string (`none` = `NaN` for a non-numeric string) and is the identity on an
already-numeric cell. -/
def toNumericCoerce : VCell → Option Rat
  | .raw s => parseNumeric s
  | .num q => some q

/-- The cleaning step of `fetch_fred_data` (lines 83-86 of `app.py`):
convert the `date` column with `pd.to_datetime` (any failure raises, giving
`none`), coerce the `value` column with `pd.to_numeric(errors='coerce')`
(failures become `NaN`), then `dropna(subset=['value'])` removes the `NaN`
rows.  Row order is preserved; no sorting is performed. -/
def cleanObs : List CellObs → Option (List Obs)
  | [] => some []
  | o :: rest =>
    match toDatetimeCell o.date, cleanObs rest with
    | some d, some tail =>
      match toNumericCoerce o.value with
      | some q => some (⟨d, q⟩ :: tail)
      | none => some tail
    | _, _ => none

/-- View a raw JSON observation as a pair of raw cells. -/
def rawCell (o : RawObs) : CellObs := ⟨.raw o.date, .raw o.value⟩

/-- View a cleaned row as a pair of already-typed cells (a datetime cell and
a numeric cell), as it sits in an already-cleaned frame. -/
def obsCell (o : Obs) : CellObs := ⟨.dt o.date, .num o.value⟩

/-- A list of rows is sorted ascending by date (non-strict), the
`is_monotonic_increasing` property of the frame's date index. -/
def SortedByDate (l : List Obs) : Prop :=
  List.Pairwise (fun x y => Date.Le x.date y.date) l

/-- A list of rows is sorted descending by date (non-strict), the
`is_monotonic_decreasing` property of the frame's date index. -/
def SortedByDateDesc (l : List Obs) : Prop :=
  List.Pairwise (fun x y => Date.Le y.date x.date) l

instance (l : List Obs) : Decidable (SortedByDate l) := by
  unfold SortedByDate; infer_instance

instance (l : List Obs) : Decidable (SortedByDateDesc l) := by
  unfold SortedByDateDesc; infer_instance

/-- Static metadata of one configured FRED series (an entry of the
`FRED_SERIES` table, lines 15-51 of `app.py`; the long prose fields are
elided as they never flow into the pipeline). -/
structure SeriesInfo where
  id : String
  units : String
  frequency : String
deriving DecidableEq, Repr

/-- The configured indicator table `FRED_SERIES`: display name mapped to
series metadata. -/
def FRED_SERIES : List (String × SeriesInfo) :=
  [("Federal Funds Rate (DFF)", ⟨"DFF", "Percent (%)", "Daily"⟩),
   ("Real GDP (GDPC1)", ⟨"GDPC1", "Billions of Chained 2017 Dollars", "Quarterly"⟩),
   ("Unemployment Rate (UNRATE)", ⟨"UNRATE", "Percent (%)", "Monthly"⟩),
   ("CPI (CPIAUCSL)", ⟨"CPIAUCSL", "Index (1982-84=100)", "Monthly"⟩),
   ("10-Year Treasury Yield (DGS10)", ⟨"DGS10", "Percent (%)", "Daily"⟩)]

/-- The configured series identifiers. -/
def configuredIds : List String := FRED_SERIES.map (fun p => p.2.id)

/-- The base URL of the FRED observations endpoint (line 8). -/
def FRED_API_BASE_URL : String := "https://api.stlouisfed.org/fred/series/observations"

/-- The query parameters of the GET request built at lines 67-72: they
depend only on the series identifier and the API key; `observation_start`
is the fixed string "1950-01-01" and there is no `observation_end`. -/
def buildParams (series_id api_key : String) : List (String × String) :=
  [("series_id", series_id),
   ("file_type", "json"),
   ("api_key", api_key),
   ("observation_start", "1950-01-01")]

/-- A Python exception, as classified by the handlers of `app.py`:
`requestException` covers `requests.exceptions.RequestException` (transport
failure, and the `HTTPError` raised by `raise_for_status`); `keyError` is
the `KeyError` of a missing secret; `otherExn` is any other `Exception`. -/
inductive PyExn where
  | requestException (msg : String)
  | keyError (k : String)
  | otherExn (msg : String)
deriving DecidableEq, Repr

/-- The HTTP response delivered by `requests.get` when the transport
succeeds: a status code, and the outcome of `response.json()` —
`Except.error` is a JSON decode failure (raised exception), and a decoded
body is `some obs` when it is a truthy JSON object with an `observations`
array, `none` otherwise (the `data and 'observations' in data` test of
line 79 failing). -/
structure HttpResponse where
  status : Nat
  body : Except String (Option (List RawObs))
deriving Repr

/-- The ambient environment of one run: the Streamlit secrets store and the
behaviour of the network transport (`Except.error` models a raised
`requests.exceptions.RequestException`, e.g. connection refused or
timeout). -/
structure Env where
  secrets : List (String × String)
  transport : Except String HttpResponse

/-- The observable result of `fetch_fred_data`: the returned DataFrame as a
list of rows, the `st.error` messages emitted, and the query parameters of
the HTTP GET that was issued (`none` when no request was made). -/
structure FetchResult where
  df : List Obs
  errors : List String
  request : Option (List (String × String))
deriving DecidableEq, Repr

/-- The body of the `try` block at lines 74-92 of `fetch_fred_data`, with
every raise point explicit: a transport failure raises `RequestException`;
`raise_for_status` raises `HTTPError` (a `RequestException`) on a 4xx/5xx
status; a JSON decode failure raises; a date-parse failure in
`pd.to_datetime` raises.  On a payload without observations it returns the
empty frame together with the `st.error` message of line 91. -/
def fetchTry (env : Env) (series_id : String) :
    Except PyExn (List Obs × List String) :=
  match env.transport with
  | .error e => .error (PyExn.requestException e)
  | .ok response =>
    if 400 ≤ response.status then
      .error (PyExn.requestException ("HTTP status " ++ toString response.status))
    else
      match response.body with
      | .error e => .error (PyExn.otherExn e)
      | .ok data =>
        match data with
        | some obs =>
          match cleanObs (obs.map rawCell) with
          | some df => .ok (df, [])
          | none => .error (PyExn.otherExn "to_datetime failed")
        | none =>
          .ok ([], ["No observations found for series ID: " ++ series_id ++
                    ". Check series ID or API key."])

/-- The function `fetch_fred_data` (lines 55-98): look up the API key (a missing key is
the caught `KeyError` of line 63, giving an `st.error` and an empty frame);
otherwise issue the GET with `buildParams` and run the `try` body, with the
two `except` clauses of lines 93-98 converting any raised exception into an
`st.error` message and an empty frame.  The function is total: no exception
escapes it. -/
def fetch_fred_data (env : Env) (series_id : String) : FetchResult :=
  match env.secrets.lookup "FRED_API_KEY" with
  | none =>
    ⟨[], ["FRED API Key not found. Please add FRED_API_KEY to your " ++
          ".streamlit/secrets.toml file."], none⟩
  | some api_key =>
    let params := buildParams series_id api_key
    match fetchTry env series_id with
    | .ok (df, errs) => ⟨df, errs, some params⟩
    | .error (PyExn.requestException e) =>
      ⟨[], ["Failed to fetch data from FRED API: " ++ e ++
            ". Ensure your FRED API key is valid and check your network " ++
            "connection."], some params⟩
    | .error _ => ⟨[], ["An unexpected error occurred"], some params⟩

/-- Label slicing `df.loc[start:end]` (line 153) with ISO date strings on
the DatetimeIndex, under contemporary pandas (2.x) semantics.  On a
monotonic-increasing index the result is the inclusive contiguous block
from the first date `≥ start` through the last date `≤ end` (the string
bounds are cast to the start of the start day and the end of the end day).
On a monotonic-decreasing index the bound casting is mirrored, giving the
block of dates `≤ start` down to `≥ end` in index order.  On a
non-monotonic index, value-based partial slicing demands both cast bounds
to be present in the index; the end bound is cast to the last nanosecond of
its day, which a midnight-valued index never contains, so the slice raises
`KeyError` — an exception `main` does not catch.  (pandas 1.x instead fell
back to a value-based filter here; this model follows pandas ≥ 2.) -/
def locSlice (a b : Date) (df : List Obs) : Except PyExn (List Obs) :=
  if SortedByDate df then
    .ok ((df.dropWhile (fun o => ! Date.ble a o.date)).takeWhile
      (fun o => Date.ble o.date b))
  else if SortedByDateDesc df then
    .ok ((df.dropWhile (fun o => ! Date.ble o.date a)).takeWhile
      (fun o => Date.ble b o.date))
  else
    .error (PyExn.keyError ("Value based partial slicing on non-monotonic " ++
      "DatetimeIndexes with non-existing keys is not allowed"))

/-- The user-controlled widget state of one rerun: the selected series and
the two date pickers. -/
structure Input where
  series_id : String
  start_date : Date
  end_date : Date

/-- The outcome of one run of `main`, with every Streamlit message that was
displayed inline: the early return on an invalid date range (line 138/139),
the empty-frame warning (line 202), the empty-filter warning (line 156), or
a successful chart (lines 158-198) with the filtered rows and the length of
the raw-data preview (`df_filtered.head()`). -/
inductive Outcome where
  | invalidRange (err : String)
  | noData (errs : List String) (warn : String)
  | emptyRange (errs : List String) (warn : String)
  | charted (errs : List String) (success : String) (chart : List Obs)
      (previewLen : Nat)
deriving DecidableEq, Repr

/-- All inline messages (`st.error` / `st.warning` / `st.success`) the
outcome displays. -/
def Outcome.inline : Outcome → List String
  | .invalidRange e => [e]
  | .noData errs w => errs ++ [w]
  | .emptyRange errs w => errs ++ [w]
  | .charted errs s _ _ => errs ++ [s]

/-- The display logic that follows the fetch (lines 151-202): warn on an
empty frame (line 202), slice by the selected range (line 153, which may
raise out of `main` — nothing catches it there), warn on an empty filtered
frame (line 156), or chart the filtered rows with a head-preview
(lines 158-198). -/
def runFetched (start_date end_date : Date) (r : FetchResult) :
    Except PyExn Outcome :=
  if r.df.isEmpty then
    .ok (.noData r.errors ("Could not load data for the selected series. " ++
      "Please ensure your FRED API key is correctly set in " ++
      ".streamlit/secrets.toml and try again."))
  else
    match locSlice start_date end_date r.df with
    | .error e => .error e
    | .ok df_filtered =>
      if df_filtered.isEmpty then
        .ok (.emptyRange r.errors ("No data available for the selected date " ++
          "range. Please adjust your dates."))
      else
        .ok (.charted r.errors "Data fetched and filtered successfully!"
          df_filtered (min 5 df_filtered.length))

/-- The observable trace of one run of `main`: the HTTP request issued
during the run, if any, and how the run ended — a normal outcome, or a
Python exception propagating out of `main` uncaught. -/
structure RunTrace where
  request : Option (List (String × String))
  result : Except PyExn Outcome
deriving DecidableEq, Repr

/-- One run of `main` (lines 101-202): validate the date range before
anything else (lines 137-139, early return with a sidebar error and no
fetch); otherwise run `fetch_fred_data` (which issues the request and
catches its own exceptions) and hand its frame to the display logic, whose
only uncaught raise point is the `.loc` slice of line 153. -/
def mainRun (env : Env) (inp : Input) : RunTrace :=
  if Date.blt inp.end_date inp.start_date then
    ⟨none, .ok (.invalidRange "Error: End Date cannot be before Start Date.")⟩
  else
    let r := fetch_fred_data env inp.series_id
    ⟨r.request, runFetched inp.start_date inp.end_date r⟩

/-- Ascending-date comparison on raw payload observations, under their
parsed dates (vacuously true when either date fails to parse). -/
def rawDateLe (x y : RawObs) : Bool :=
  match parseDate x.date, parseDate y.date with
  | some a, some b => Date.ble a b
  | _, _ => true

/-- A stub environment whose transport returns a well-formed payload whose
observations are out of date order (February 2020 before January 2020). -/
def envUnsortedPayload : Env :=
  ⟨[("FRED_API_KEY", "k")],
   .ok ⟨200, .ok (some [⟨"2020-02-01", "1.0"⟩, ⟨"2020-01-01", "2.0"⟩])⟩⟩

/-- A stub environment whose transport returns a well-formed payload whose
observations are in non-monotonic date order (January, March, then
February 2020), so the cleaned date index is neither increasing nor
decreasing. -/
def envNonMonotonic : Env :=
  ⟨[("FRED_API_KEY", "k")],
   .ok ⟨200, .ok (some [⟨"2020-01-01", "1.0"⟩, ⟨"2020-03-01", "2.0"⟩,
                        ⟨"2020-02-01", "3.0"⟩])⟩⟩

/-- A stub environment whose transport returns a well-formed, date-sorted
payload containing one missing-value sentinel. -/
def envSortedPayload : Env :=
  ⟨[("FRED_API_KEY", "k")],
   .ok ⟨200, .ok (some [⟨"2020-01-01", "2.0"⟩, ⟨"2020-01-02", "."⟩,
                        ⟨"2020-02-01", "1.5"⟩])⟩⟩

/-- A stub environment whose transport raises a connection error. -/
def envRefused : Env := ⟨[("FRED_API_KEY", "k")], .error "connection refused"⟩

/-- A stub environment whose secrets store has no API key. -/
def envNoKey : Env := ⟨[], .ok ⟨200, .ok (some [])⟩⟩

/-- A stub environment for exercising the date-range check. -/
def envRangeCheck : Env := ⟨[("FRED_API_KEY", "k")], .error "never reached"⟩

/-- A stub environment with a well-formed one-observation payload. -/
def envOneObs : Env :=
  ⟨[("FRED_API_KEY", "k")], .ok ⟨200, .ok (some [⟨"2020-01-01", "1.0"⟩])⟩⟩

/-- A stub environment with a well-formed two-observation payload, one
observation carrying the missing-value sentinel. -/
def envWithMissing : Env :=
  ⟨[("FRED_API_KEY", "k")],
   .ok ⟨200, .ok (some [⟨"2020-01-01", "1.0"⟩, ⟨"2020-01-02", "."⟩])⟩⟩

/-- A cleaned series of dates spanning 2020-01-01 through 2020-12-31. -/
def demoSeries : List Obs :=
  [⟨⟨2020, 1, 1⟩, 1⟩, ⟨⟨2020, 5, 31⟩, 2⟩, ⟨⟨2020, 6, 1⟩, 3⟩,
   ⟨⟨2020, 6, 15⟩, 4⟩, ⟨⟨2020, 6, 30⟩, 5⟩, ⟨⟨2020, 7, 1⟩, 6⟩,
   ⟨⟨2020, 12, 31⟩, 7⟩]

theorem Date.Le_trans {a b c : Date} (h1 : Date.Le a b) (h2 : Date.Le b c) :
    Date.Le a c := by
  unfold Date.Le at *; omega

theorem Date.not_Le {a b : Date} : ¬ Date.Le a b ↔ Date.Lt b a := by
  unfold Date.Le Date.Lt; omega

theorem Date.ble_iff {a b : Date} : Date.ble a b = true ↔ Date.Le a b := by
  simp [Date.ble]

theorem Date.blt_iff {a b : Date} : Date.blt a b = true ↔ Date.Lt a b := by
  simp [Date.blt]

/-- Cleaning drops exactly the rows whose value cell coerces to `NaN`:
the output length plus the number of dropped rows is the input length. -/
theorem cleanObs_length (l : List CellObs) (df : List Obs)
    (h : cleanObs l = some df) :
    df.length + l.countP (fun c => (toNumericCoerce c.value).isNone) = l.length := by
  induction l generalizing df with
  | nil =>
    simp only [cleanObs, Option.some.injEq] at h
    subst h; simp
  | cons c rest ih =>
    simp only [cleanObs] at h
    cases hd : toDatetimeCell c.date with
    | none => rw [hd] at h; cases hr : cleanObs rest <;> rw [hr] at h <;> exact absurd h (by simp)
    | some d =>
      rw [hd] at h
      cases hr : cleanObs rest with
      | none => rw [hr] at h; exact absurd h (by simp)
      | some tail =>
        rw [hr] at h
        cases hv : toNumericCoerce c.value with
        | none =>
          rw [hv] at h
          simp only [Option.some.injEq] at h
          subst h
          have := ih tail hr
          simp [List.countP_cons, hv]
          omega
        | some q =>
          rw [hv] at h
          simp only [Option.some.injEq] at h
          subst h
          have := ih tail hr
          simp [List.countP_cons, hv]
          omega

/-- Every row of a cleaned frame comes from an input row whose date cell
parsed to its date and whose value cell coerced to its value. -/
theorem cleanObs_mem (l : List CellObs) (df : List Obs)
    (h : cleanObs l = some df) :
    ∀ r ∈ df, ∃ c ∈ l, toDatetimeCell c.date = some r.date ∧
      toNumericCoerce c.value = some r.value := by
  induction l generalizing df with
  | nil =>
    simp only [cleanObs, Option.some.injEq] at h
    subst h; simp
  | cons c rest ih =>
    simp only [cleanObs] at h
    cases hd : toDatetimeCell c.date with
    | none => rw [hd] at h; cases hr : cleanObs rest <;> rw [hr] at h <;> exact absurd h (by simp)
    | some d =>
      rw [hd] at h
      cases hr : cleanObs rest with
      | none => rw [hr] at h; exact absurd h (by simp)
      | some tail =>
        rw [hr] at h
        cases hv : toNumericCoerce c.value with
        | none =>
          rw [hv] at h
          simp only [Option.some.injEq] at h
          subst h
          intro r hrmem
          obtain ⟨c', hc', hc'd, hc'v⟩ := ih tail hr r hrmem
          exact ⟨c', List.mem_cons_of_mem _ hc', hc'd, hc'v⟩
        | some q =>
          rw [hv] at h
          simp only [Option.some.injEq] at h
          subst h
          intro r hrmem
          rcases List.mem_cons.mp hrmem with hrc | hrtail
          · subst hrc; exact ⟨c, List.mem_cons_self _ _, hd, hv⟩
          · obtain ⟨c', hc', hc'd, hc'v⟩ := ih tail hr r hrtail
            exact ⟨c', List.mem_cons_of_mem _ hc', hc'd, hc'v⟩

/-- Cleaning succeeds (no raised exception) whenever every date cell
parses. -/
theorem cleanObs_total (l : List CellObs)
    (h : ∀ c ∈ l, (toDatetimeCell c.date).isSome) :
    ∃ df, cleanObs l = some df := by
  induction l with
  | nil => exact ⟨[], rfl⟩
  | cons c rest ih =>
    obtain ⟨tail, htail⟩ := ih (fun c' hc' => h c' (List.mem_cons_of_mem _ hc'))
    have hc := h c (List.mem_cons_self _ _)
    cases hd : toDatetimeCell c.date with
    | none => rw [hd] at hc; exact absurd hc (by simp)
    | some d =>
      cases hv : toNumericCoerce c.value with
      | none => exact ⟨tail, by simp only [cleanObs, hd, htail, hv]⟩
      | some q => exact ⟨⟨d, q⟩ :: tail, by simp only [cleanObs, hd, htail, hv]⟩

/-- Cleaning an already-cleaned series changes nothing: `pd.to_datetime` is
the identity on a datetime column, `pd.to_numeric` on a numeric column, and
`dropna` drops nothing when no value is `NaN`. -/
theorem cleanObs_clean_fixed (s : List Obs) : cleanObs (s.map obsCell) = some s := by
  induction s with
  | nil => rfl
  | cons o rest ih =>
    simp only [List.map_cons, cleanObs, obsCell, toDatetimeCell, toNumericCoerce, ih]

/-- Cleaning preserves input order: if the input rows are pairwise in
ascending date order (under their parsed dates), so is the output. -/
theorem cleanObs_sorted (l : List CellObs) (df : List Obs)
    (h : cleanObs l = some df)
    (hs : List.Pairwise (fun x y => ∀ dx dy, toDatetimeCell x.date = some dx →
      toDatetimeCell y.date = some dy → Date.Le dx dy) l) :
    SortedByDate df := by
  induction l generalizing df with
  | nil =>
    simp only [cleanObs, Option.some.injEq] at h
    subst h; exact List.Pairwise.nil
  | cons c rest ih =>
    rw [List.pairwise_cons] at hs
    obtain ⟨hc, hrest⟩ := hs
    simp only [cleanObs] at h
    cases hd : toDatetimeCell c.date with
    | none => rw [hd] at h; cases hr : cleanObs rest <;> rw [hr] at h <;> exact absurd h (by simp)
    | some d =>
      rw [hd] at h
      cases hr : cleanObs rest with
      | none => rw [hr] at h; exact absurd h (by simp)
      | some tail =>
        rw [hr] at h
        cases hv : toNumericCoerce c.value with
        | none =>
          rw [hv] at h
          simp only [Option.some.injEq] at h
          subst h
          exact ih tail hr hrest
        | some q =>
          rw [hv] at h
          simp only [Option.some.injEq] at h
          subst h
          rw [SortedByDate, List.pairwise_cons]
          refine ⟨?_, ih tail hr hrest⟩
          intro r hrmem
          obtain ⟨c', hc', hc'd, _⟩ := cleanObs_mem rest tail hr r hrmem
          exact hc c' hc' d r.date hd hc'd

/-- On a date-sorted list, keeping the dates `≤ b` is a `takeWhile`. -/
theorem sorted_filter_le_eq_takeWhile (b : Date) (l : List Obs)
    (h : SortedByDate l) :
    l.filter (fun o => Date.ble o.date b) = l.takeWhile (fun o => Date.ble o.date b) := by
  induction l with
  | nil => rfl
  | cons x xs ih =>
    rw [SortedByDate, List.pairwise_cons] at h
    obtain ⟨hx, hxs⟩ := h
    by_cases hb : Date.ble x.date b = true
    · rw [List.filter_cons, List.takeWhile_cons, if_pos hb, if_pos hb, ih hxs]
    · have hall : ∀ y ∈ xs, ¬ (Date.ble y.date b = true) := by
        intro y hy hyb
        exact hb (Date.ble_iff.mpr
          (Date.Le_trans (hx y hy) (Date.ble_iff.mp hyb)))
      rw [List.filter_cons, List.takeWhile_cons, if_neg hb, if_neg hb]
      exact List.filter_eq_nil_iff.mpr hall

/-- On a date-sorted list, keeping the dates `≥ a` is a `dropWhile`. -/
theorem sorted_filter_ge_eq_dropWhile (a : Date) (l : List Obs)
    (h : SortedByDate l) :
    l.filter (fun o => Date.ble a o.date)
      = l.dropWhile (fun o => ! Date.ble a o.date) := by
  induction l with
  | nil => rfl
  | cons x xs ih =>
    rw [SortedByDate, List.pairwise_cons] at h
    obtain ⟨hx, hxs⟩ := h
    by_cases hb : Date.ble a x.date = true
    · have hall : ∀ y ∈ xs, Date.ble a y.date = true := by
        intro y hy
        exact Date.ble_iff.mpr (Date.Le_trans (Date.ble_iff.mp hb) (hx y hy))
      rw [List.filter_cons, List.dropWhile_cons, if_pos hb, if_neg (by simp [hb])]
      rw [List.filter_eq_self.mpr hall]
    · rw [List.filter_cons, List.dropWhile_cons, if_neg hb, if_pos (by simp [hb])]
      exact ih hxs

example : parseDate "2020-06-01" = some ⟨2020, 6, 1⟩ := by decide
example : parseNumeric "." = none := by decide
example : parseNumeric "2.5" = some (mkRat 5 2) := by decide
example : parseNumeric "-0.75" = some (mkRat (-3) 4) := by decide
example : parseNumeric "" = none := by decide
example : parseNumeric "abc" = none := by decide
example :
    cleanObs [⟨.raw "2020-01-01", .raw "1.0"⟩, ⟨.raw "2020-01-02", .raw "."⟩]
      = some [⟨⟨2020, 1, 1⟩, 1⟩] := by decide

/-- Evaluation of `fetch_fred_data` in the successful-fetch scenario: key
present, transport delivering a success status and a body carrying an
observations array, and cleaning succeeding. -/
theorem fetch_eval (env : Env) (sid key : String) (resp : HttpResponse)
    (obs : List RawObs) (df : List Obs)
    (hkey : env.secrets.lookup "FRED_API_KEY" = some key)
    (htr : env.transport = Except.ok resp)
    (hst : resp.status < 400)
    (hbody : resp.body = Except.ok (some obs))
    (hclean : cleanObs (obs.map rawCell) = some df) :
    fetch_fred_data env sid = ⟨df, [], some (buildParams sid key)⟩ := by
  simp only [fetch_fred_data, fetchTry, hkey, htr, hbody, hclean,
    if_neg (show ¬ 400 ≤ resp.status by omega)]

/-- C7: if the API key secret is absent, `fetch_fred_data` records the
clear user-visible `st.error` message, returns an empty frame, and issues
no request — it does not crash. -/
theorem c7_missing_key_inline_error (env : Env) (sid : String)
    (h : env.secrets.lookup "FRED_API_KEY" = none) :
    fetch_fred_data env sid =
      ⟨[], ["FRED API Key not found. Please add FRED_API_KEY to your " ++
            ".streamlit/secrets.toml file."], none⟩ := by
  unfold fetch_fred_data
  rw [h]

/-- Witness for C7 at a concrete environment with no secret. -/
theorem c7_witness :
    envNoKey.secrets.lookup "FRED_API_KEY" = none ∧
    fetch_fred_data envNoKey "DFF" =
      ⟨[], ["FRED API Key not found. Please add FRED_API_KEY to your " ++
            ".streamlit/secrets.toml file."], none⟩ :=
  ⟨by decide, c7_missing_key_inline_error envNoKey "DFF" (by decide)⟩

/-- C6: on a transport failure or a non-success HTTP status,
`fetch_fred_data` returns an empty frame and records a user-facing error
message; the fault is caught, not re-raised. -/
theorem c6_fetch_failure_empty_and_error (env : Env) (sid key : String)
    (hkey : env.secrets.lookup "FRED_API_KEY" = some key)
    (herr : (∃ e, env.transport = Except.error e) ∨
      (∃ resp, env.transport = Except.ok resp ∧ 400 ≤ resp.status)) :
    (fetch_fred_data env sid).df = [] ∧
      (fetch_fred_data env sid).errors ≠ [] := by
  rcases herr with ⟨e, he⟩ | ⟨resp, hresp, hst⟩
  · simp [fetch_fred_data, fetchTry, hkey, he]
  · simp [fetch_fred_data, fetchTry, hkey, hresp, if_pos hst]

/-- Witness for C6 at a concrete environment with a stubbed connection
failure. -/
theorem c6_witness :
    envRefused.secrets.lookup "FRED_API_KEY" = some "k" ∧
    envRefused.transport = Except.error "connection refused" ∧
    (fetch_fred_data envRefused "DFF").df = [] ∧
      (fetch_fred_data envRefused "DFF").errors ≠ [] := by
  refine ⟨by decide, rfl, ?_⟩
  exact c6_fetch_failure_empty_and_error envRefused "DFF" "k" (by decide)
    (Or.inl ⟨"connection refused", rfl⟩)

/-- C5: whenever the user-supplied start date is strictly after the end
date, the run is rejected at lines 137-139: the inline sidebar error is
displayed, no chart is drawn, and no HTTP request is issued. -/
theorem c5_invalid_range_rejected (env : Env) (inp : Input)
    (h : Date.blt inp.end_date inp.start_date = true) :
    mainRun env inp =
      ⟨none, Except.ok
        (Outcome.invalidRange "Error: End Date cannot be before Start Date.")⟩ := by
  unfold mainRun
  rw [if_pos h]

/-- Witness for C5 at a concrete invalid range (start 2020-06-01, end
2020-01-01). -/
theorem c5_witness :
    Date.blt ⟨2020, 1, 1⟩ ⟨2020, 6, 1⟩ = true ∧
    mainRun envRangeCheck ⟨"DFF", ⟨2020, 6, 1⟩, ⟨2020, 1, 1⟩⟩ =
      ⟨none, Except.ok
        (Outcome.invalidRange "Error: End Date cannot be before Start Date.")⟩ :=
  ⟨by decide,
   c5_invalid_range_rejected envRangeCheck ⟨"DFF", ⟨2020, 6, 1⟩, ⟨2020, 1, 1⟩⟩
     (by decide)⟩

/-- On a sorted frame the slice of line 153 is the inclusive block and
raises nothing. -/
theorem locSlice_ok_of_sorted (a b : Date) (df : List Obs)
    (h : SortedByDate df) :
    locSlice a b df = Except.ok ((df.dropWhile
      (fun o => ! Date.ble a o.date)).takeWhile
        (fun o => Date.ble o.date b)) := by
  unfold locSlice
  rw [if_pos h]

/-- When the fetched frame is date-sorted, the display logic after the
fetch ends in a normal outcome carrying at least one inline message. -/
theorem runFetched_ok_of_sorted (a b : Date) (r : FetchResult)
    (hs : SortedByDate r.df) :
    ∃ o : Outcome, runFetched a b r = Except.ok o ∧ o.inline ≠ [] := by
  unfold runFetched
  by_cases h2 : r.df.isEmpty = true
  · rw [if_pos h2]
    exact ⟨_, rfl, by simp [Outcome.inline]⟩
  · rw [if_neg h2, locSlice_ok_of_sorted a b r.df hs]
    split
    next e heq => exact absurd heq (by simp)
    next dfl heq =>
      split
      · exact ⟨_, rfl, by simp [Outcome.inline]⟩
      · exact ⟨_, rfl, by simp [Outcome.inline]⟩

/-- C2 as stated is false: the claim quantifies over every payload, but on
a payload whose cleaned frame is non-monotonic (reachable, since the fetch
never sorts) the `.loc` slice of line 153 raises a `KeyError` that `main`
does not catch, aborting the run with no inline message.  Concretely:
valid bounds, the three-observation payload of `envNonMonotonic`, and the
run ends in a propagated exception. -/
theorem c2_counterexample :
    Date.blt ⟨2020, 12, 31⟩ ⟨2020, 1, 1⟩ = false ∧
    ¬ SortedByDate (fetch_fred_data envNonMonotonic "DFF").df ∧
    (mainRun envNonMonotonic ⟨"DFF", ⟨2020, 1, 1⟩, ⟨2020, 12, 31⟩⟩).result
      = Except.error (PyExn.keyError
          ("Value based partial slicing on non-monotonic " ++
           "DatetimeIndexes with non-existing keys is not allowed")) := by
  refine ⟨by decide, ?_, by decide⟩
  unfold SortedByDate
  decide

/-- C2 amended: whenever the fetched frame is date-sorted — which holds on
every error path of the taxonomy (missing credential, transport failure,
non-success status, malformed body, empty result: the frame is then empty)
as well as on every payload delivered in the provider's ascending default
order — one run of the pipeline terminates normally, never with a
propagated exception, and the outcome displays at least one inline
message, so the process stays interactive.  (Only a non-monotonic fetched
frame escapes this: the slice of line 153 then raises uncaught, see the
counterexample.) -/
theorem c2_sorted_frame_no_unhandled_fault (env : Env) (inp : Input)
    (hs : SortedByDate (fetch_fred_data env inp.series_id).df) :
    ∃ o : Outcome, (mainRun env inp).result = Except.ok o ∧
      o.inline ≠ [] := by
  simp only [mainRun]
  by_cases h1 : Date.blt inp.end_date inp.start_date = true
  · rw [if_pos h1]
    exact ⟨_, rfl, by simp [Outcome.inline]⟩
  · rw [if_neg h1]
    exact runFetched_ok_of_sorted inp.start_date inp.end_date
      (fetch_fred_data env inp.series_id) hs

/-- Witness for the amended C2 at a concrete sorted-payload environment. -/
theorem c2_witness :
    SortedByDate (fetch_fred_data envSortedPayload "DFF").df ∧
    (∃ o : Outcome,
      (mainRun envSortedPayload ⟨"DFF", ⟨2020, 1, 1⟩, ⟨2020, 12, 31⟩⟩).result
        = Except.ok o ∧ o.inline ≠ []) :=
  ⟨by decide,
   c2_sorted_frame_no_unhandled_fault envSortedPayload
     ⟨"DFF", ⟨2020, 1, 1⟩, ⟨2020, 12, 31⟩⟩ (by decide)⟩

/-- C9: the cleaning step is idempotent — applied to the cells of an
already-cleaned series (datetime dates, numeric values, no missing rows),
it raises nothing, drops nothing, and returns the same series. -/
theorem c9_cleaning_idempotent (s : List Obs) :
    cleanObs (s.map obsCell) = some s := by
  induction s with
  | nil => rfl
  | cons o rest ih =>
    simp only [List.map_cons, cleanObs, obsCell, toDatetimeCell,
      toNumericCoerce, ih]

/-- C4: the missing-value sentinel "." parses to the missing marker `none`,
never to a number; a row whose value cell coerces to the missing marker is
dropped by cleaning (the frame is as if the row were absent); and every
value in a cleaned frame is the successful numeric coercion of its source
cell — so no non-numeric value is ever converted to 0.0. -/
theorem c4_nonnumeric_never_zero :
    parseNumeric "." = none ∧
    (∀ (c : CellObs) (d : Date), toDatetimeCell c.date = some d →
      toNumericCoerce c.value = none →
      ∀ l, cleanObs (c :: l) = cleanObs l) ∧
    (∀ (l : List CellObs) (df : List Obs), cleanObs l = some df →
      ∀ r ∈ df, ∃ c ∈ l, toNumericCoerce c.value = some r.value) := by
  refine ⟨by decide, ?_, ?_⟩
  · intro c d hd hv l
    cases hl : cleanObs l with
    | none => simp only [cleanObs, hd, hv, hl]
    | some tail => simp only [cleanObs, hd, hv, hl]
  · intro l df h r hr
    obtain ⟨c, hc, _, hv⟩ := cleanObs_mem l df h r hr
    exact ⟨c, hc, hv⟩

/-- Witness for C4: the sentinel row is dropped from a concrete
one-row frame. -/
theorem c4_witness :
    toNumericCoerce (VCell.raw ".") = none ∧
    cleanObs [⟨DCell.dt ⟨2020, 1, 1⟩, VCell.raw "."⟩] = some [] := by
  constructor
  · decide
  · rw [c4_nonnumeric_never_zero.2.1 ⟨DCell.dt ⟨2020, 1, 1⟩, VCell.raw "."⟩
      ⟨2020, 1, 1⟩ rfl (by decide) []]
    rfl

/-- C3: on a date-sorted ObservationSeries, the date-range filter of line
153 (`df.loc[start:end]`) returns exactly the subsequence of rows whose
date `d` satisfies `start ≤ d ≤ end`, both bounds inclusive. -/
theorem c3_date_range_filter_inclusive (df : List Obs) (a b : Date)
    (h : SortedByDate df) :
    locSlice a b df
      = Except.ok (df.filter
          (fun o => Date.ble a o.date && Date.ble o.date b)) := by
  rw [locSlice_ok_of_sorted a b df h]
  congr 1
  rw [← sorted_filter_ge_eq_dropWhile a df h]
  rw [← sorted_filter_le_eq_takeWhile b _ (List.Pairwise.filter _ h)]
  rw [List.filter_filter]
  exact List.filter_congr (fun o _ => Bool.and_comm _ _)

/-- Witness for C3: filtering the 2020 demo series with bounds
[2020-06-01, 2020-06-30] keeps exactly the June 2020 observations. -/
theorem c3_witness :
    SortedByDate demoSeries ∧
    locSlice ⟨2020, 6, 1⟩ ⟨2020, 6, 30⟩ demoSeries
      = Except.ok (demoSeries.filter (fun o =>
          Date.ble ⟨2020, 6, 1⟩ o.date && Date.ble o.date ⟨2020, 6, 30⟩)) ∧
    locSlice ⟨2020, 6, 1⟩ ⟨2020, 6, 30⟩ demoSeries
      = Except.ok [⟨⟨2020, 6, 1⟩, 3⟩, ⟨⟨2020, 6, 15⟩, 4⟩,
          ⟨⟨2020, 6, 30⟩, 5⟩] := by
  refine ⟨?_, ?_, ?_⟩
  · unfold SortedByDate demoSeries; decide
  · exact c3_date_range_filter_inclusive demoSeries _ _
      (by unfold SortedByDate demoSeries; decide)
  · decide

/-- C1 as stated is false: `fetch_fred_data` performs no sort, so a
well-formed payload delivered out of date order yields an unsorted series
(the code relies on the provider's delivery order).  Concretely, with the
payload of `envUnsortedPayload` (2020-02-01 before 2020-01-01) the returned
series is in payload order and not sorted ascending by date. -/
theorem c1_counterexample :
    (fetch_fred_data envUnsortedPayload "DFF").df
        = [⟨⟨2020, 2, 1⟩, 1⟩, ⟨⟨2020, 1, 1⟩, 2⟩] ∧
      ¬ SortedByDate (fetch_fred_data envUnsortedPayload "DFF").df := by
  constructor
  · decide
  · unfold SortedByDate
    decide

/-- C1 amended: the series returned by `fetch_fred_data` preserves the
payload's observation order, so it is sorted ascending by date whenever the
payload's observations already are (the provider's default order); the
function itself performs no sort. -/
theorem c1_sorted_payload_sorted_series (env : Env) (sid key : String)
    (resp : HttpResponse) (obs : List RawObs)
    (hkey : env.secrets.lookup "FRED_API_KEY" = some key)
    (htr : env.transport = Except.ok resp)
    (hst : resp.status < 400)
    (hbody : resp.body = Except.ok (some obs))
    (hsorted : List.Pairwise (fun x y => rawDateLe x y = true) obs) :
    SortedByDate (fetch_fred_data env sid).df := by
  cases hclean : cleanObs (obs.map rawCell) with
  | none =>
    have hdf : (fetch_fred_data env sid).df = [] := by
      simp only [fetch_fred_data, fetchTry, hkey, htr, hbody, hclean,
        if_neg (show ¬ 400 ≤ resp.status by omega)]
    rw [hdf]
    exact List.Pairwise.nil
  | some df =>
    have hdf : (fetch_fred_data env sid).df = df := by
      rw [fetch_eval env sid key resp obs df hkey htr hst hbody hclean]
    rw [hdf]
    apply cleanObs_sorted (obs.map rawCell) df hclean
    rw [List.pairwise_map]
    refine List.Pairwise.imp ?_ hsorted
    intro x y hxy dx dy hdx hdy
    have hdx' : parseDate x.date = some dx := hdx
    have hdy' : parseDate y.date = some dy := hdy
    unfold rawDateLe at hxy
    rw [hdx', hdy'] at hxy
    exact Date.ble_iff.mp hxy

/-- Witness for the amended C1 at a concrete sorted payload. -/
theorem c1_witness :
    envSortedPayload.secrets.lookup "FRED_API_KEY" = some "k" ∧
    SortedByDate (fetch_fred_data envSortedPayload "DFF").df := by
  constructor
  · decide
  · exact c1_sorted_payload_sorted_series envSortedPayload "DFF" "k"
      ⟨200, .ok (some [⟨"2020-01-01", "2.0"⟩, ⟨"2020-01-02", "."⟩,
        ⟨"2020-02-01", "1.5"⟩])⟩
      [⟨"2020-01-01", "2.0"⟩, ⟨"2020-01-02", "."⟩, ⟨"2020-02-01", "1.5"⟩]
      (by decide) rfl (by decide) rfl (by decide)

/-- C8: for a configured series identifier and a stubbed well-formed
payload (every date parseable), the returned series has length equal to
the number of payload observations minus the number whose value field is
non-numeric (the dropped-missing entries). -/
theorem c8_series_length (env : Env) (sid key : String) (resp : HttpResponse)
    (obs : List RawObs)
    (hsid : sid ∈ configuredIds)
    (hkey : env.secrets.lookup "FRED_API_KEY" = some key)
    (htr : env.transport = Except.ok resp)
    (hst : resp.status < 400)
    (hbody : resp.body = Except.ok (some obs))
    (hdates : ∀ o ∈ obs, (parseDate o.date).isSome = true) :
    (fetch_fred_data env sid).df.length
      = obs.length - obs.countP (fun o => (parseNumeric o.value).isNone) := by
  obtain ⟨df, hclean⟩ := cleanObs_total (obs.map rawCell) (by
    intro c hc
    obtain ⟨o, ho, rfl⟩ := List.mem_map.mp hc
    exact hdates o ho)
  have hdf : (fetch_fred_data env sid).df = df := by
    rw [fetch_eval env sid key resp obs df hkey htr hst hbody hclean]
  have hlen := cleanObs_length (obs.map rawCell) df hclean
  rw [List.countP_map, List.length_map] at hlen
  have hcnt : List.countP
        ((fun c => (toNumericCoerce c.value).isNone) ∘ rawCell) obs
      = List.countP (fun o => (parseNumeric o.value).isNone) obs :=
    List.countP_congr (fun o _ => Iff.rfl)
  rw [hcnt] at hlen
  rw [hdf]
  omega

/-- Witness for C8: a two-observation payload with one missing value
yields a series of length 2 - 1 = 1. -/
theorem c8_witness :
    "DFF" ∈ configuredIds ∧
    (fetch_fred_data envWithMissing "DFF").df.length = 2 - 1 := by
  constructor
  · decide
  · rw [c8_series_length envWithMissing "DFF" "k"
      ⟨200, .ok (some [⟨"2020-01-01", "1.0"⟩, ⟨"2020-01-02", "."⟩])⟩
      [⟨"2020-01-01", "1.0"⟩, ⟨"2020-01-02", "."⟩]
      (by decide) (by decide) rfl (by decide) rfl (by decide)]
    decide

/-- With the key present, the request recorded by `fetch_fred_data` is
exactly the one built from the series id and the key, whatever the
transport does. -/
theorem fetch_request (env : Env) (sid key : String)
    (hkey : env.secrets.lookup "FRED_API_KEY" = some key) :
    (fetch_fred_data env sid).request = some (buildParams sid key) := by
  unfold fetch_fred_data
  rw [hkey]
  cases hft : fetchTry env sid with
  | error e => cases e <;> simp
  | ok r => obtain ⟨df, errs⟩ := r; simp

/-- On a valid date range, the request a run records is exactly the one of
`fetch_fred_data` for the selected series — whether or not the run later
raises at the slice. -/
theorem mainRun_request (env : Env) (inp : Input)
    (h : Date.blt inp.end_date inp.start_date = false) :
    (mainRun env inp).request = (fetch_fred_data env inp.series_id).request := by
  simp only [mainRun]
  rw [if_neg (by simp [h])]

/-- C10: the HTTP request issued by a run depends only on the selected
series identifier (and the fixed key): two runs with the same series and
any two valid date ranges issue identical requests, whose parameters fix
`observation_start` at "1950-01-01" and carry no `observation_end`; the
user's date range restricts the data only client-side, after the fetch. -/
theorem c10_request_independent_of_range (env : Env) (inp1 inp2 : Input)
    (key : String)
    (hkey : env.secrets.lookup "FRED_API_KEY" = some key)
    (hsid : inp1.series_id = inp2.series_id)
    (h1 : Date.blt inp1.end_date inp1.start_date = false)
    (h2 : Date.blt inp2.end_date inp2.start_date = false) :
    (mainRun env inp1).request = (mainRun env inp2).request ∧
    (mainRun env inp1).request = some (buildParams inp1.series_id key) ∧
    (buildParams inp1.series_id key).lookup "observation_start"
      = some "1950-01-01" ∧
    (buildParams inp1.series_id key).lookup "observation_end" = none := by
  have hq1 := mainRun_request env inp1 h1
  have hq2 := mainRun_request env inp2 h2
  refine ⟨?_, ?_, rfl, rfl⟩
  · rw [hq1, hq2, hsid]
  · rw [hq1, fetch_request env inp1.series_id key hkey]

/-- Witness for C10 at a concrete environment and two distinct valid date
ranges for the same series. -/
theorem c10_witness :
    envOneObs.secrets.lookup "FRED_API_KEY" = some "k" ∧
    ((mainRun envOneObs ⟨"DFF", ⟨2020, 1, 1⟩, ⟨2020, 6, 1⟩⟩).request
        = (mainRun envOneObs ⟨"DFF", ⟨1990, 1, 1⟩, ⟨2021, 1, 1⟩⟩).request ∧
      (mainRun envOneObs ⟨"DFF", ⟨2020, 1, 1⟩, ⟨2020, 6, 1⟩⟩).request
        = some (buildParams "DFF" "k") ∧
      (buildParams "DFF" "k").lookup "observation_start" = some "1950-01-01" ∧
      (buildParams "DFF" "k").lookup "observation_end" = none) :=
  ⟨by decide,
   c10_request_independent_of_range envOneObs
     ⟨"DFF", ⟨2020, 1, 1⟩, ⟨2020, 6, 1⟩⟩ ⟨"DFF", ⟨1990, 1, 1⟩, ⟨2021, 1, 1⟩⟩
     "k" (by decide) rfl (by decide) (by decide)⟩

end PublicDataViz
